import Mathlib

/-!
Verification development for the wildfire detection data pipeline
(`src/data_collectors/data_pipeline.py`, class `WildfireDataPipeline`).

The Python code is shallowly embedded: dictionaries of optional numeric
fields become structures of `Option (Option ℚ)` values (the outer `Option`
records whether the key is present, the inner one whether the value is
null), floating-point arithmetic is modelled exactly over `ℚ`, the SQLite
store becomes a list of rows with the UNIQUE-constraint semantics made
explicit, and the network is an environment mapping each attempt index to
an outcome.
-/

namespace WildfirePipeline

/-- A value stored under one key of a Python dict: `none` means the key is
absent, `some none` means the key is present but its value is `None`, and
`some (some x)` is a present non-null value. -/
abbrev Col (α : Type) : Type := Option (Option α)

/-- `pyGetOr v d` embeds the Python idiom `record.get(key, d) or d` used at
the top of `calculate_fire_risk`: a missing key yields `d`, a null value
yields `d`, and a present value is kept unless it is falsy (zero), in which
case it is also replaced by `d`. -/
def pyGetOr (v : Col ℚ) (d : ℚ) : ℚ :=
  match v with
  | some (some x) => if x = 0 then d else x
  | _ => d

/-- One weather record dictionary, as built by `process_weather_data` and
consumed by `calculate_fire_risk` and `save_weather_data`. -/
structure WeatherRecord where
  latitude : Col ℚ
  longitude : Col ℚ
  temperature : Col ℚ
  humidity : Col ℚ
  wind_speed : Col ℚ
  wind_direction : Col ℚ
  soil_temperature : Col ℚ
  soil_moisture : Col ℚ
  precipitation : Col ℚ
  weather_datetime : Col String
deriving DecidableEq

/-- One fire-risk record dictionary, as returned by `calculate_fire_risk`
and stored in the `fire_risk` table. -/
structure RiskRecord where
  latitude : Option ℚ
  longitude : Option ℚ
  risk_level : ℕ
  risk_score : ℚ
  temperature_factor : ℚ
  humidity_factor : ℚ
  wind_factor : ℚ
  soil_factor : ℚ
  calculation_date : Option String
deriving DecidableEq

/-- The `risk_score → risk_level` cascade of `calculate_fire_risk`
(lines 263-272 of `data_pipeline.py`). -/
def riskLevelOf (risk_score : ℚ) : ℕ :=
  if risk_score < 0.2 then 1
  else if risk_score < 0.4 then 2
  else if risk_score < 0.6 then 3
  else if risk_score < 0.8 then 4
  else 5

/-- Embedding of `WildfireDataPipeline.calculate_fire_risk`.  The five
scoring fields go through `record.get(key, default) or default`
(`pyGetOr`); the factors and the weighted score copy the source formulas
verbatim; the result dictionary indexes `latitude`, `longitude` and
`weather_datetime` directly, which raises `KeyError` (modelled as `none`)
when one of those keys is absent. -/
def calculate_fire_risk (w : WeatherRecord) : Option RiskRecord :=
  match w.latitude, w.longitude, w.weather_datetime with
  | some lat, some lon, some dt =>
    let temp := pyGetOr w.temperature 0
    let humidity := pyGetOr w.humidity 100
    let wind_speed := pyGetOr w.wind_speed 0
    let soil_moisture := pyGetOr w.soil_moisture 1
    let precipitation := pyGetOr w.precipitation 0
    let temp_factor := min (max ((temp - 10) / 30) 0) 1
    let humidity_factor := max ((100 - humidity) / 100) 0
    let wind_factor := min (wind_speed / 50) 1
    let soil_factor := max ((0.5 - soil_moisture) / 0.5) 0
    let precip_factor := max (1 - precipitation / 10) 0
    let risk_score := temp_factor * 0.25 + humidity_factor * 0.3 +
      wind_factor * 0.2 + soil_factor * 0.15 + precip_factor * 0.1
    some {
      latitude := lat
      longitude := lon
      risk_level := riskLevelOf risk_score
      risk_score := risk_score
      temperature_factor := temp_factor
      humidity_factor := humidity_factor
      wind_factor := wind_factor
      soil_factor := soil_factor
      calculation_date := dt }
  | _, _, _ => none

/-- Modelled from the spec: the clamp-to-`[0,1]` operation the spec uses in
its factor formulas; compared against the one-sided `min`/`max` expressions
the source actually computes. -/
def clamp01 (x : ℚ) : ℚ := min (max x 0) 1

/-! ## Weather fetch with retry (`fetch_weather_data`) -/

/-- The parallel hourly arrays of the Open-Meteo JSON payload.  Numeric
entries may be null. -/
structure HourlyData where
  time : List String
  temperature_2m : List (Option ℚ)
  relative_humidity_2m : List (Option ℚ)
  wind_speed_10m : List (Option ℚ)
  wind_direction_10m : List (Option ℚ)
  soil_temperature_0cm : List (Option ℚ)
  soil_moisture_0_to_1cm : List (Option ℚ)
  precipitation : List (Option ℚ)
deriving DecidableEq

/-- A non-empty (truthy) JSON response body; the `hourly` key may be
absent. -/
structure WeatherData where
  hourly : Option HourlyData
deriving DecidableEq

/-- What one `session.get` + `raise_for_status` + `json()` attempt inside
`fetch_weather_data` can do, matching the `except` arms of the source:
succeed with a payload, time out, fail to connect, raise `HTTPError` for a
non-success status (any status — `raise_for_status` does not distinguish),
raise another `RequestException`, or raise an unexpected exception. -/
inductive AttemptOutcome where
  | success (data : WeatherData)
  | timeout
  | connectionError
  | httpStatus (code : ℕ)
  | requestException
  | otherError
deriving DecidableEq

/-- Whether an attempt outcome is the `return data` arm. -/
def AttemptOutcome.isSuccess : AttemptOutcome → Bool
  | .success _ => true
  | _ => false

/-- `self.max_retries` from `WildfireDataPipeline.__init__`. -/
def max_retries : ℕ := 3

/-- The `for attempt in range(self.max_retries)` loop of
`fetch_weather_data`: `env n` is the outcome of the `n`-th HTTP request;
every non-success outcome is caught by an `except` arm and the loop moves
to the next attempt.  Returns the fetched payload (`none` embeds the
final `return \x7b\x7d`) together with the number of requests issued. -/
def fetchAttempts (env : ℕ → AttemptOutcome) : ℕ → ℕ → Option WeatherData × ℕ
  | attempt, 0 => (none, attempt)
  | attempt, fuel + 1 =>
    match env attempt with
    | .success d => (some d, attempt + 1)
    | _ => fetchAttempts env (attempt + 1) fuel

/-- Embedding of `WildfireDataPipeline.fetch_weather_data` for one
coordinate: run the attempt loop from attempt `0` with `max_retries`
attempts available. -/
def fetch_weather_data (env : ℕ → AttemptOutcome) : Option WeatherData × ℕ :=
  fetchAttempts env 0 max_retries

/-! ## `process_weather_data` -/

/-- Embedding of `WildfireDataPipeline.process_weather_data` applied to a
truthy response dict: without an `hourly` key the record list is empty;
otherwise one record per entry of `hourly.time` is built, and an out-of-
range index into any parallel array (`IndexError`, caught by the
`except` arm) discards all records and yields `[]`. -/
def process_weather_data (wd : WeatherData) (lat lon : ℚ) : List WeatherRecord :=
  match wd.hourly with
  | none => []
  | some h =>
    let n := h.time.length
    if n ≤ h.temperature_2m.length ∧ n ≤ h.relative_humidity_2m.length ∧
        n ≤ h.wind_speed_10m.length ∧ n ≤ h.wind_direction_10m.length ∧
        n ≤ h.soil_temperature_0cm.length ∧ n ≤ h.soil_moisture_0_to_1cm.length ∧
        n ≤ h.precipitation.length then
      (List.range n).map (fun i =>
        { latitude := some (some lat)
          longitude := some (some lon)
          temperature := some (h.temperature_2m.getD i none)
          humidity := some (h.relative_humidity_2m.getD i none)
          wind_speed := some (h.wind_speed_10m.getD i none)
          wind_direction := some (h.wind_direction_10m.getD i none)
          soil_temperature := some (h.soil_temperature_0cm.getD i none)
          soil_moisture := some (h.soil_moisture_0_to_1cm.getD i none)
          precipitation := some (h.precipitation.getD i none)
          weather_datetime := some (some (h.time.getD i "")) })
    else []

/-! ## Persistence layer (`init_database` + the three save methods)

`init_database` declares UNIQUE natural keys:
`active_fires(latitude, longitude, acq_date, acq_time, satellite)`,
`weather_data(latitude, longitude, weather_datetime)` and
`fire_risk(latitude, longitude, calculation_date)`.  Each save method
short-circuits on an empty batch, otherwise opens a connection and runs
`DataFrame.to_sql(..., if_exists='append')` inside `try/except`: the rows
are inserted in one transaction, so the first UNIQUE violation makes
SQLite raise `IntegrityError`, the transaction rolls back, and the
`except` arm swallows the error — the store then keeps its old contents.
SQLite treats NULLs in a UNIQUE index as distinct, so a conflict needs
all key columns non-null and equal. -/

/-- One parsed NASA FIRMS detection row (columns of the `active_fires`
table that come from the CSV feed). -/
structure FireRow where
  country_id : String
  latitude : ℚ
  longitude : ℚ
  brightness : ℚ
  scan : ℚ
  track : ℚ
  acq_date : String
  acq_time : String
  satellite : String
  instrument : String
  confidence : ℤ
  version : String
  bright_t31 : ℚ
  frp : ℚ
  daynight : String
deriving DecidableEq

/-- Equality of two nullable numeric columns in a UNIQUE index: NULLs
never compare equal. -/
def nnEqQ (a b : Option ℚ) : Bool :=
  match a, b with
  | some x, some y => x = y
  | _, _ => false

/-- Equality of two nullable text columns in a UNIQUE index. -/
def nnEqS (a b : Option String) : Bool :=
  match a, b with
  | some x, some y => x = y
  | _, _ => false

/-- The dict value actually written to a table column: an absent key and a
null value both become SQL NULL. -/
def colVal {α : Type} : Col α → Option α
  | some (some x) => some x
  | _ => none

/-- UNIQUE-key conflict between two `weather_data` rows. -/
def weatherConflict (r s : WeatherRecord) : Bool :=
  nnEqQ (colVal r.latitude) (colVal s.latitude) &&
  nnEqQ (colVal r.longitude) (colVal s.longitude) &&
  nnEqS (colVal r.weather_datetime) (colVal s.weather_datetime)

/-- UNIQUE-key conflict between two `fire_risk` rows. -/
def riskConflict (r s : RiskRecord) : Bool :=
  nnEqQ r.latitude s.latitude && nnEqQ r.longitude s.longitude &&
  nnEqS r.calculation_date s.calculation_date

/-- UNIQUE-key conflict between two `active_fires` rows (all key columns
of a parsed CSV row are non-null). -/
def fireConflict (r s : FireRow) : Bool :=
  r.latitude = s.latitude && r.longitude = s.longitude &&
  r.acq_date = s.acq_date && r.acq_time = s.acq_time && r.satellite = s.satellite

/-- Whether the sequential insert of a batch hits a UNIQUE violation
between two of its own rows. -/
def internalConflict {α : Type} (conflict : α → α → Bool) : List α → Bool
  | [] => false
  | r :: rest => rest.any (conflict r) || internalConflict conflict rest

/-- Net effect of `DataFrame.to_sql(if_exists='append')` under a UNIQUE
constraint with the surrounding `try/except`: if any batch row conflicts
with the store or with an earlier batch row, the transaction rolls back
and the store is unchanged; otherwise the whole batch is appended. -/
def insertAllOrNothing {α : Type} (conflict : α → α → Bool)
    (store batch : List α) : List α :=
  if batch.any (fun r => store.any (conflict r)) || internalConflict conflict batch
  then store
  else store ++ batch

/-- Embedding of `WildfireDataPipeline.save_active_fires`; the boolean
records whether a database connection was opened. -/
def save_active_fires (fire_df : List FireRow) (store : List FireRow) :
    List FireRow × Bool :=
  if fire_df.isEmpty then (store, false)
  else (insertAllOrNothing fireConflict store fire_df, true)

/-- Embedding of `WildfireDataPipeline.save_weather_data`. -/
def save_weather_data (weather_data : List WeatherRecord)
    (store : List WeatherRecord) : List WeatherRecord × Bool :=
  if weather_data.isEmpty then (store, false)
  else (insertAllOrNothing weatherConflict store weather_data, true)

/-- Embedding of `WildfireDataPipeline.save_risk_data`. -/
def save_risk_data (risk_records : List RiskRecord)
    (store : List RiskRecord) : List RiskRecord × Bool :=
  if risk_records.isEmpty then (store, false)
  else (insertAllOrNothing riskConflict store risk_records, true)

/-! ## Pipeline orchestrator (`run_pipeline`) -/

/-- `DataFrame.drop_duplicates`: keep the first occurrence of every value,
preserving order. -/
def dropDuplicates : List (ℚ × ℚ) → List (ℚ × ℚ)
  | [] => []
  | p :: ps => p :: dropDuplicates (ps.filter (fun q => q ≠ p))
termination_by l => l.length
decreasing_by
  simpa using Nat.lt_succ_of_le (List.length_filter_le _ ps)

/-- Embedding of `WildfireDataPipeline.extract_coordinates_from_fires`:
project each detection row to its `(latitude, longitude)` pair and drop
duplicate pairs. -/
def extract_coordinates_from_fires (fire_df : List FireRow) : List (ℚ × ℚ) :=
  dropDuplicates (fire_df.map (fun r => (r.latitude, r.longitude)))

/-- The external world one pipeline run interacts with: the connectivity
probe's verdict, the parsed NASA FIRMS detections, and for each coordinate
the outcome of each weather-request attempt. -/
structure PipelineEnv where
  connectivity_ok : Bool
  fire_df : List FireRow
  weather : ℚ × ℚ → ℕ → AttemptOutcome

/-- The three tables of the SQLite database. -/
structure Stores where
  active_fires : List FireRow
  weather_data : List WeatherRecord
  fire_risk : List RiskRecord
deriving DecidableEq

/-- What the per-coordinate loop of `run_pipeline` accumulates: the
coordinates for which a weather fetch was issued, the two run-scoped
record buffers, and the success/failure counters. -/
structure LoopResult where
  fetch_calls : List (ℚ × ℚ)
  weather_records : List WeatherRecord
  risk_records : List RiskRecord
  successful_requests : ℕ
  failed_requests : ℕ
deriving DecidableEq

/-- The `for i, (lat, lon) in enumerate(coordinates)` loop of
`run_pipeline`: each coordinate gets exactly one call to
`fetch_weather_data`; a truthy payload is processed into weather records
and each record is scored by `calculate_fire_risk` inside its own
`try/except` (a record the scorer rejects is skipped); a falsy payload
increments `failed_requests` and the loop continues with the remaining
coordinates. -/
def processCoords (env : PipelineEnv) : List (ℚ × ℚ) → LoopResult
  | [] => ⟨[], [], [], 0, 0⟩
  | (lat, lon) :: rest =>
    let wd := (fetch_weather_data (env.weather (lat, lon))).1
    let r := processCoords env rest
    match wd with
    | some d =>
      let wrecs := process_weather_data d lat lon
      let rrecs := wrecs.filterMap calculate_fire_risk
      ⟨(lat, lon) :: r.fetch_calls, wrecs ++ r.weather_records,
        rrecs ++ r.risk_records, r.successful_requests + 1, r.failed_requests⟩
    | none =>
      ⟨(lat, lon) :: r.fetch_calls, r.weather_records, r.risk_records,
        r.successful_requests, r.failed_requests + 1⟩

/-- Result of one `run_pipeline` invocation: which weather fetches were
issued, the final counters, and the database contents afterwards. -/
structure RunResult where
  fetch_calls : List (ℚ × ℚ)
  successful_requests : ℕ
  failed_requests : ℕ
  stores : Stores
deriving DecidableEq

/-- Embedding of `WildfireDataPipeline.run_pipeline` (default
`max_locations=None` path): abort with no per-coordinate work when the
connectivity preflight fails; stop early when no fire data arrives;
otherwise save the detections, deduplicate coordinates, run the
per-coordinate loop, and batch-save the non-empty accumulated buffers. -/
def run_pipeline (env : PipelineEnv) (st : Stores) : RunResult :=
  if env.connectivity_ok = false then
    { fetch_calls := [], successful_requests := 0, failed_requests := 0,
      stores := st }
  else if env.fire_df.isEmpty then
    { fetch_calls := [], successful_requests := 0, failed_requests := 0,
      stores := st }
  else
    let fires := (save_active_fires env.fire_df st.active_fires).1
    let coordinates := extract_coordinates_from_fires env.fire_df
    let r := processCoords env coordinates
    let weather :=
      if r.weather_records.isEmpty then st.weather_data
      else (save_weather_data r.weather_records st.weather_data).1
    let risk :=
      if r.risk_records.isEmpty then st.fire_risk
      else (save_risk_data r.risk_records st.fire_risk).1
    { fetch_calls := r.fetch_calls
      successful_requests := r.successful_requests
      failed_requests := r.failed_requests
      stores := { active_fires := fires, weather_data := weather,
                  fire_risk := risk } }

/-! ## Concrete inputs for the checks below -/

/-- Builder for a weather record in which every key is present, identity
fields are non-null, and the five scoring values are as given. -/
def mkWeather (lat lon : ℚ) (t h wnd sm p : Option ℚ) (dt : String) :
    WeatherRecord :=
  { latitude := some (some lat), longitude := some (some lon),
    temperature := some t, humidity := some h, wind_speed := some wnd,
    wind_direction := some (some 0), soil_temperature := some (some 0),
    soil_moisture := some sm, precipitation := some p,
    weather_datetime := some (some dt) }

/-- A weather record with a concrete non-null natural key. -/
def wA : WeatherRecord :=
  mkWeather 1 1 (some 20) (some 50) (some 10) (some 1) (some 2)
    "2024-01-01T00:00"

/-- A second weather record whose natural key differs from `wA`. -/
def wB : WeatherRecord :=
  mkWeather 2 2 (some 30) (some 20) (some 15) (some 0) (some 0)
    "2024-01-01T01:00"

/-- A weather record with in-range scoring values, used to exercise the
factor formulas. -/
def w4w : WeatherRecord :=
  mkWeather 1 2 (some 40) (some 50) (some 25) (some 0.25) (some 5)
    "2024-01-01T00:00"

/-- The risk record `calculate_fire_risk` computes for `w4w`. -/
def r4w : RiskRecord :=
  { latitude := some 1, longitude := some 2, risk_level := 4,
    risk_score := 0.625, temperature_factor := 1, humidity_factor := 0.5,
    wind_factor := 0.5, soil_factor := 0.5,
    calculation_date := some "2024-01-01T00:00" }

/-- Builder for a detection row at a given coordinate and acquisition
key. -/
def mkFire (lat lon : ℚ) (adate atime : String) : FireRow :=
  { country_id := "USA", latitude := lat, longitude := lon,
    brightness := 300, scan := 1, track := 1, acq_date := adate,
    acq_time := atime, satellite := "T", instrument := "MODIS",
    confidence := 80, version := "6.1", bright_t31 := 290, frp := 15,
    daynight := "D" }

/-! # Theorems -/

/-! ## Helper lemmas -/

/-- `clamp01` of a value known to be at most `1` drops the upper clamp. -/
theorem clamp01_of_le_one {x : ℚ} (h : x ≤ 1) : clamp01 x = max x 0 := by
  unfold clamp01
  exact min_eq_left (max_le h (by norm_num))

/-- `clamp01` of a nonnegative value drops the lower clamp. -/
theorem clamp01_of_nonneg {x : ℚ} (h : 0 ≤ x) : clamp01 x = min x 1 := by
  unfold clamp01
  rw [max_eq_left h]

/-- `clamp01` is nonnegative. -/
theorem clamp01_nonneg (x : ℚ) : 0 ≤ clamp01 x :=
  le_min (le_max_right x 0) (by norm_num)

/-- `clamp01` is at most one. -/
theorem clamp01_le_one (x : ℚ) : clamp01 x ≤ 1 :=
  min_le_right _ 1

/-- If every attempt in the available window fails, the attempt loop runs
out of fuel and reports no payload after using every attempt. -/
theorem fetchAttempts_fail (env : ℕ → AttemptOutcome) :
    ∀ (fuel a : ℕ),
      (∀ n, a ≤ n → n < a + fuel → (env n).isSuccess = false) →
      fetchAttempts env a fuel = (none, a + fuel) := by
  intro fuel
  induction fuel with
  | zero => intro a h; simp [fetchAttempts]
  | succ f ih =>
    intro a h
    have ha := h a le_rfl (by omega)
    have hrec := ih (a + 1) (fun n h1 h2 => h n (by omega) (by omega))
    cases henv : env a with
    | success d => rw [henv] at ha; simp [AttemptOutcome.isSuccess] at ha
    | timeout => simp [fetchAttempts, henv, hrec]; omega
    | connectionError => simp [fetchAttempts, henv, hrec]; omega
    | httpStatus code => simp [fetchAttempts, henv, hrec]; omega
    | requestException => simp [fetchAttempts, henv, hrec]; omega
    | otherError => simp [fetchAttempts, henv, hrec]; omega

/-- If the first success arrives at relative position `k` inside the fuel
window, the attempt loop returns that payload after `k + 1` requests. -/
theorem fetchAttempts_success (env : ℕ → AttemptOutcome) (d : WeatherData) :
    ∀ (k fuel a : ℕ), k < fuel →
      (∀ j, a ≤ j → j < a + k → (env j).isSuccess = false) →
      env (a + k) = .success d →
      fetchAttempts env a fuel = (some d, a + k + 1) := by
  intro k
  induction k with
  | zero =>
    intro fuel a hk _ hsucc
    cases fuel with
    | zero => omega
    | succ f => simp only [fetchAttempts]; rw [show a + 0 = a by omega] at hsucc; rw [hsucc]
  | succ k ih =>
    intro fuel a hk hfail hsucc
    cases fuel with
    | zero => omega
    | succ f =>
      have ha := hfail a le_rfl (by omega)
      have hrec := ih f (a + 1) (by omega)
        (fun j h1 h2 => hfail j (by omega) (by omega))
        (by rw [show a + 1 + k = a + (k + 1) by omega]; exact hsucc)
      cases henv : env a with
      | success d2 => rw [henv] at ha; simp [AttemptOutcome.isSuccess] at ha
      | timeout => simp [fetchAttempts, henv, hrec]; omega
      | connectionError => simp [fetchAttempts, henv, hrec]; omega
      | httpStatus code => simp [fetchAttempts, henv, hrec]; omega
      | requestException => simp [fetchAttempts, henv, hrec]; omega
      | otherError => simp [fetchAttempts, henv, hrec]; omega

/-- `dropDuplicates` keeps exactly one copy of every pair occurring in its
input. -/
theorem dropDuplicates_count (l : List (ℚ × ℚ)) (p : ℚ × ℚ) :
    (dropDuplicates l).count p = if p ∈ l then 1 else 0 := by
  induction l using dropDuplicates.induct with
  | case1 => simp [dropDuplicates]
  | case2 x xs ih =>
    rw [dropDuplicates]
    by_cases hx : p = x
    · subst hx
      have hnot : p ∉ xs.filter (fun q => q ≠ p) := by
        simp [List.mem_filter]
      rw [List.count_cons_self, ih, if_neg hnot]
      simp
    · rw [List.count_cons_of_ne hx, ih]
      have : p ∈ xs.filter (fun q => q ≠ x) ↔ p ∈ xs := by
        simp [List.mem_filter, hx]
      rw [if_congr this rfl rfl]
      simp [List.mem_cons, hx]

/-- `dropDuplicates` preserves membership. -/
theorem dropDuplicates_mem (l : List (ℚ × ℚ)) (p : ℚ × ℚ) :
    p ∈ dropDuplicates l ↔ p ∈ l := by
  induction l using dropDuplicates.induct with
  | case1 => simp [dropDuplicates]
  | case2 x xs ih =>
    rw [dropDuplicates]
    by_cases hx : p = x
    · subst hx; simp
    · simp only [List.mem_cons, ih, List.mem_filter]
      simp [hx]

/-- `dropDuplicates` produces a duplicate-free list. -/
theorem dropDuplicates_nodup (l : List (ℚ × ℚ)) : (dropDuplicates l).Nodup := by
  induction l using dropDuplicates.induct with
  | case1 => simp [dropDuplicates]
  | case2 x xs ih =>
    rw [dropDuplicates]
    refine List.nodup_cons.mpr ⟨?_, ih⟩
    intro hx
    have := (dropDuplicates_mem _ x).mp hx
    simp [List.mem_filter] at this

/-- The per-coordinate loop issues exactly one weather fetch per
coordinate, in order. -/
theorem processCoords_fetch_calls (env : PipelineEnv)
    (coords : List (ℚ × ℚ)) :
    (processCoords env coords).fetch_calls = coords := by
  induction coords with
  | nil => rfl
  | cons c rest ih =>
    obtain ⟨lat, lon⟩ := c
    unfold processCoords
    cases (fetch_weather_data (env.weather (lat, lon))).1 <;> simp [ih]

/-! ## Claim theorems -/

/-- C1: the claim expects risk_score 1.0 and risk_level 5 for an
observation with temperature 40, humidity 0, wind_speed 50,
soil_moisture 0 and precipitation 0 all present and non-null, with
present zeros used as given.  The code instead feeds every scoring field
through `value or default`, so the present zeros humidity=0 and
soil_moisture=0 are replaced by the defaults 100 and 1: the computed
score is 11/20 = 0.55 and the level is 3. -/
theorem C1_extreme_conditions_code_eval :
    (calculate_fire_risk
      (mkWeather 1 2 (some 40) (some 0) (some 50) (some 0) (some 0)
        "2024-01-01T00:00")).map (fun r => (r.risk_score, r.risk_level)) =
      some (11/20, 3) ∧ (11/20 : ℚ) ≠ 1 ∧ (3 : ℕ) ≠ 5 := by
  refine ⟨?_, by norm_num, by norm_num⟩
  norm_num [calculate_fire_risk, mkWeather, pyGetOr, riskLevelOf, min_def,
    max_def]

/-- C5: the risk-level mapping uses exact half-open intervals
[0,0.2)→1, [0.2,0.4)→2, [0.4,0.6)→3, [0.6,0.8)→4, [0.8,1]→5, and the
boundary scores 0.2, 0.19999, 0.8 and 0.79999 map to levels 2, 1, 5
and 4. -/
theorem C5_risk_level_intervals (s : ℚ) :
    (0 ≤ s → s < 0.2 → riskLevelOf s = 1) ∧
    (0.2 ≤ s → s < 0.4 → riskLevelOf s = 2) ∧
    (0.4 ≤ s → s < 0.6 → riskLevelOf s = 3) ∧
    (0.6 ≤ s → s < 0.8 → riskLevelOf s = 4) ∧
    (0.8 ≤ s → s ≤ 1 → riskLevelOf s = 5) ∧
    riskLevelOf 0.2 = 2 ∧ riskLevelOf 0.19999 = 1 ∧
    riskLevelOf 0.8 = 5 ∧ riskLevelOf 0.79999 = 4 := by
  refine ⟨?_, ?_, ?_, ?_, ?_, ?_, ?_, ?_, ?_⟩ <;>
    · intros
      unfold riskLevelOf
      split_ifs <;> first | rfl | linarith

/-- Witness for C5 at the concrete score 0.3. -/
theorem C5_witness : riskLevelOf 0.3 = 2 :=
  (C5_risk_level_intervals 0.3).2.1 (by norm_num) (by norm_num)

/-- C6: when the connectivity preflight returns false, `run_pipeline`
aborts before any per-coordinate work: no weather fetch is issued, the
counters stay zero, and all three tables are unchanged. -/
theorem C6_preflight_failure_aborts (env : PipelineEnv) (st : Stores)
    (h : env.connectivity_ok = false) :
    run_pipeline env st =
      { fetch_calls := [], successful_requests := 0, failed_requests := 0,
        stores := st } := by
  unfold run_pipeline
  rw [h]
  simp

/-- Witness for C6 on a concrete failing-preflight environment. -/
theorem C6_witness :
    run_pipeline ⟨false, [mkFire 1 2 "2024-01-01" "0100"], fun _ _ => .timeout⟩
      ⟨[], [], []⟩ =
      { fetch_calls := [], successful_requests := 0, failed_requests := 0,
        stores := ⟨[], [], []⟩ } :=
  C6_preflight_failure_aborts _ _ rfl

/-- C9 counterexample: the claim says `calculate_fire_risk` produces a
result for every dictionary input, including one missing any of its keys;
on a record with every key absent the code raises `KeyError` at
`weather_record['latitude']` (result `none` in the embedding). -/
theorem C9_counterexample :
    calculate_fire_risk
      { latitude := none, longitude := none, temperature := none,
        humidity := none, wind_speed := none, wind_direction := none,
        soil_temperature := none, soil_moisture := none,
        precipitation := none, weather_datetime := none } = none := rfl

/-- C9 amended: `calculate_fire_risk` always produces a result (its only
treatment of absent data being the default substitution) provided the
`latitude`, `longitude` and `weather_datetime` keys are present — the five
scoring fields may be missing or null in any combination; a record missing
one of those three identity keys raises `KeyError` instead. -/
theorem C9_total_when_identity_keys_present (w : WeatherRecord)
    (hlat : w.latitude.isSome = true) (hlon : w.longitude.isSome = true)
    (hdt : w.weather_datetime.isSome = true) :
    (calculate_fire_risk w).isSome = true := by
  unfold calculate_fire_risk
  cases h1 : w.latitude with
  | none => rw [h1] at hlat; simp at hlat
  | some lat =>
    cases h2 : w.longitude with
    | none => rw [h2] at hlon; simp at hlon
    | some lon =>
      cases h3 : w.weather_datetime with
      | none => rw [h3] at hdt; simp at hdt
      | some dt => simp

/-- Witness for C9 on a record whose identity keys are present (with null
values) and whose scoring keys are all absent. -/
theorem C9_witness :
    (calculate_fire_risk
      { latitude := some none, longitude := some none, temperature := none,
        humidity := none, wind_speed := none, wind_direction := none,
        soil_temperature := none, soil_moisture := none,
        precipitation := none, weather_datetime := some none }).isSome =
      true :=
  C9_total_when_identity_keys_present _ rfl rfl rfl

/-- C10: each of the three save methods is a pure no-op on an empty batch:
the store is returned unchanged and no database connection is opened, so
no storage error can occur. -/
theorem C10_empty_batch_noop (f : List FireRow) (w : List WeatherRecord)
    (r : List RiskRecord) :
    save_active_fires [] f = (f, false) ∧
    save_weather_data [] w = (w, false) ∧
    save_risk_data [] r = (r, false) :=
  ⟨rfl, rfl, rfl⟩

/-- C3 counterexample: the claim says an attempt failing with a
client-class HTTP error (4xx other than 429) ends the fetch with no
further attempts.  With a 404 on the first attempt and a success on the
second, the code issues the second request and returns its payload: the
`except requests.exceptions.HTTPError` arm catches every non-success
status and falls through to the next loop iteration. -/
theorem C3_counterexample :
    fetch_weather_data
      (fun n => if n = 0 then .httpStatus 404 else .success ⟨none⟩) =
      (some ⟨none⟩, 2) ∧ (2 : ℕ) ≠ 1 := by
  exact ⟨rfl, by norm_num⟩

/-- C3 amended: the per-coordinate fetch loop treats every failed attempt
alike — timeouts, connection failures and HTTP errors of every status,
client-class 4xx included — retrying until the 3-attempt bound; the first
successful attempt ends the loop and its payload is returned (status-code
selectivity exists only in the mounted urllib3 adapter below this loop,
not in the loop itself). -/
theorem C3_every_error_retried (env : ℕ → AttemptOutcome) (d : WeatherData)
    (k : ℕ) (hk : k < max_retries)
    (hfail : ∀ j < k, (env j).isSuccess = false)
    (hsucc : env k = .success d) :
    fetch_weather_data env = (some d, k + 1) := by
  have h := fetchAttempts_success env d k max_retries 0 hk
    (fun j h1 h2 => hfail j (by omega)) (by simpa using hsucc)
  simpa [fetch_weather_data] using h

/-- Witness for C3: a 404 on attempt 0 is followed by attempt 1, whose
success is returned. -/
theorem C3_witness :
    fetch_weather_data
      (fun n => if n = 0 then .httpStatus 429 else .success ⟨none⟩) =
      (some ⟨none⟩, 2) :=
  C3_every_error_retried _ ⟨none⟩ 1 (by norm_num [max_retries])
    (fun j hj => by
      have hj0 : j = 0 := by omega
      subst hj0; rfl)
    rfl

/-- C8: when every attempt for a coordinate fails, the fetch returns the
falsy payload (no exception escapes — every arm is caught), and the
per-coordinate loop counts one more failure for that coordinate while
processing the remaining coordinates exactly as before: one failed
coordinate never aborts the run. -/
theorem C8_exhausted_fetch_skips_coordinate (env : PipelineEnv)
    (lat lon : ℚ) (rest : List (ℚ × ℚ))
    (h : ∀ n < max_retries, (env.weather (lat, lon) n).isSuccess = false) :
    (fetch_weather_data (env.weather (lat, lon))).1 = none ∧
    processCoords env ((lat, lon) :: rest) =
      { fetch_calls := (lat, lon) :: (processCoords env rest).fetch_calls
        weather_records := (processCoords env rest).weather_records
        risk_records := (processCoords env rest).risk_records
        successful_requests := (processCoords env rest).successful_requests
        failed_requests := (processCoords env rest).failed_requests + 1 } := by
  have hf : fetch_weather_data (env.weather (lat, lon)) =
      (none, max_retries) := by
    have h2 := fetchAttempts_fail (env.weather (lat, lon)) max_retries 0
      (fun n h1 h2 => h n (by omega))
    simpa [fetch_weather_data] using h2
  refine ⟨by rw [hf], ?_⟩
  conv_lhs => rw [processCoords]
  rw [hf]

/-- Witness for C8: a coordinate whose three attempts all time out is
recorded as one failure with empty buffers. -/
theorem C8_witness :
    (fetch_weather_data
      ((⟨true, [], fun _ _ => .timeout⟩ : PipelineEnv).weather (1, 2))).1 =
      none ∧
    processCoords (⟨true, [], fun _ _ => .timeout⟩ : PipelineEnv) [(1, 2)] =
      { fetch_calls := [(1, 2)], weather_records := [], risk_records := [],
        successful_requests := 0, failed_requests := 1 } := by
  have h := C8_exhausted_fetch_skips_coordinate
    (⟨true, [], fun _ _ => .timeout⟩ : PipelineEnv) 1 2 []
    (fun n hn => rfl)
  simpa [processCoords] using h

/-- C7: coordinate extraction has set semantics — each distinct
(latitude, longitude) pair of the detections appears in the extracted list
exactly once, the list is duplicate-free, and a run whose preflight passes
issues exactly one weather fetch per extracted coordinate. -/
theorem C7_coordinate_dedup (rows : List FireRow) :
    (extract_coordinates_from_fires rows).Nodup ∧
    (∀ p : ℚ × ℚ, (extract_coordinates_from_fires rows).count p =
      if p ∈ rows.map (fun r => (r.latitude, r.longitude)) then 1 else 0) ∧
    (∀ (env : PipelineEnv) (st : Stores), env.connectivity_ok = true →
      env.fire_df = rows →
      (run_pipeline env st).fetch_calls =
        extract_coordinates_from_fires rows) := by
  refine ⟨dropDuplicates_nodup _, fun p => by
    rw [extract_coordinates_from_fires, dropDuplicates_count], ?_⟩
  intro env st hconn hdf
  subst hdf
  unfold run_pipeline
  rw [hconn]
  by_cases he : env.fire_df.isEmpty
  · have hemp : env.fire_df = [] := by simpa using he
    simp [he, hemp, extract_coordinates_from_fires, dropDuplicates]
  · simp [he, processCoords_fetch_calls]

/-- Witness for C7 on the spec's end-to-end scenario: three detections at
two distinct coordinates yield exactly two weather fetches. -/
theorem C7_witness :
    (run_pipeline
      ⟨true, [mkFire 34.05 (-118.25) "2024-01-01" "0100",
              mkFire 34.05 (-118.25) "2024-01-02" "0200",
              mkFire 36.77 (-119.42) "2024-01-01" "0100"],
        fun _ _ => .timeout⟩ ⟨[], [], []⟩).fetch_calls =
      [(34.05, -118.25), (36.77, -119.42)] := by
  rw [(C7_coordinate_dedup
    [mkFire 34.05 (-118.25) "2024-01-01" "0100",
     mkFire 34.05 (-118.25) "2024-01-02" "0200",
     mkFire 36.77 (-119.42) "2024-01-01" "0100"]).2.2 _ ⟨[], [], []⟩ rfl rfl]
  rw [extract_coordinates_from_fires]
  norm_num [mkFire]
  rw [dropDuplicates]
  norm_num [List.filter]
  rw [dropDuplicates]
  norm_num [List.filter]
  rw [dropDuplicates]

/-- A batch whose sequential insert hits a UNIQUE violation (against the
store or an earlier row of the same batch) is rolled back whole: the
store is unchanged. -/
theorem save_weather_conflict_unchanged (store batch : List WeatherRecord)
    (hc : ((batch.any fun r => store.any (weatherConflict r)) ||
      internalConflict weatherConflict batch) = true) :
    (save_weather_data batch store).1 = store := by
  cases batch with
  | nil => simp [internalConflict] at hc
  | cons b bs =>
    unfold save_weather_data
    rw [if_neg (by simp)]
    unfold insertAllOrNothing
    rw [if_pos hc]

/-- A batch with no UNIQUE violation is appended whole. -/
theorem save_weather_clean_appends (store batch : List WeatherRecord)
    (hc : ((batch.any fun r => store.any (weatherConflict r)) ||
      internalConflict weatherConflict batch) = false) :
    (save_weather_data batch store).1 = store ++ batch := by
  cases batch with
  | nil => simp [save_weather_data]
  | cons b bs =>
    unfold save_weather_data
    rw [if_neg (by simp)]
    unfold insertAllOrNothing
    rw [if_neg (by rw [hc]; simp)]

/-- C2 counterexample: the claim says duplicate rows are skipped while the
remaining rows of the batch are still inserted.  Saving the batch
`[wA, wB]` into a store already holding `wA` inserts nothing: the
`to_sql` append fails on the duplicate, the whole transaction rolls back,
and the fresh row `wB` is lost too. -/
theorem C2_counterexample :
    (save_weather_data [wA, wB] [wA]).1 = [wA] ∧
    wB ∉ (save_weather_data [wA, wB] [wA]).1 := by
  decide

/-- C2 amended: duplicates are handled at batch granularity, not row
granularity — a batch containing any row whose fully non-null natural key
(latitude, longitude, weather_datetime) already exists in the store, or is
duplicated inside the batch, leaves the store entirely unchanged (the
error is caught, so nothing is raised); a batch with no such conflict is
inserted whole; consequently re-running the same save is idempotent for
batches of rows with non-null natural keys. -/
theorem C2_batch_conflict_semantics (store batch : List WeatherRecord)
    (hkeys : ∀ r ∈ batch, weatherConflict r r = true) :
    (((batch.any fun r => store.any (weatherConflict r)) ||
        internalConflict weatherConflict batch) = true →
      (save_weather_data batch store).1 = store) ∧
    (((batch.any fun r => store.any (weatherConflict r)) ||
        internalConflict weatherConflict batch) = false →
      (save_weather_data batch store).1 = store ++ batch) ∧
    (save_weather_data batch (save_weather_data batch store).1).1 =
      (save_weather_data batch store).1 := by
  refine ⟨save_weather_conflict_unchanged store batch,
    save_weather_clean_appends store batch, ?_⟩
  cases batch with
  | nil => rfl
  | cons b bs =>
    by_cases hc : ((b :: bs).any fun r => store.any (weatherConflict r)) ||
      internalConflict weatherConflict (b :: bs)
    · have h1 := save_weather_conflict_unchanged store (b :: bs) hc
      rw [h1, h1]
    · have h1 := save_weather_clean_appends store (b :: bs)
        (by simpa using hc)
      rw [h1]
      have hc2 : (((b :: bs).any fun r =>
          (store ++ b :: bs).any (weatherConflict r)) ||
          internalConflict weatherConflict (b :: bs)) = true := by
        have hb : ((b :: bs).any fun r =>
            (store ++ b :: bs).any (weatherConflict r)) = true :=
          List.any_eq_true.mpr ⟨b, by simp,
            List.any_eq_true.mpr ⟨b, by simp, hkeys b (by simp)⟩⟩
        rw [hb, Bool.true_or]
      exact save_weather_conflict_unchanged (store ++ b :: bs) (b :: bs) hc2

/-- Witness for C2: inserting the batch `[wA]` twice leaves the store as
it was after the first insert. -/
theorem C2_witness :
    (save_weather_data [wA] ((save_weather_data [wA] []).1)).1 =
      (save_weather_data [wA] []).1 :=
  (C2_batch_conflict_semantics [] [wA] (by decide)).2.2

/-- C4 counterexample: the claim says every factor equals its clamped-to-
[0,1] spec formula and risk_score always lies in [0,1].  On a record with
wind_speed −100 the code computes wind_factor = min(−2, 1) = −2 (the lower
clamp is missing), which differs from clamp(−100/50) = 0, and the risk
score comes out −7/40 < 0. -/
theorem C4_counterexample :
    ((calculate_fire_risk
      (mkWeather 1 2 (some 25) (some 100) (some (-100)) (some 1) (some 0)
        "2024-01-01T00:00")).map RiskRecord.wind_factor ≠
      some (clamp01 (pyGetOr
        (mkWeather 1 2 (some 25) (some 100) (some (-100)) (some 1) (some 0)
          "2024-01-01T00:00").wind_speed 0 / 50))) ∧
    (calculate_fire_risk
      (mkWeather 1 2 (some 25) (some 100) (some (-100)) (some 1) (some 0)
        "2024-01-01T00:00")).map RiskRecord.risk_score =
      some (-(7/40)) ∧ ¬ (0 : ℚ) ≤ -(7/40 : ℚ) := by
  refine ⟨?_, ?_, by norm_num⟩ <;>
    norm_num [calculate_fire_risk, mkWeather, pyGetOr, clamp01, riskLevelOf,
      min_def, max_def]

/-- C4 amended: the source clamps only one side of four of the five
factors (temperature two-sided; humidity, soil and precipitation from
below only; wind from above only), and the formulas apply to the
falsy-defaulted values (`value or default`), so the claim holds exactly
when the effective humidity, wind speed, soil moisture and precipitation
are nonnegative: then every factor equals its clamped spec formula, the
risk score is the stated weighted sum, and it lies in [0,1]. -/
theorem C4_factor_formulas (w : WeatherRecord) (r : RiskRecord)
    (hr : calculate_fire_risk w = some r)
    (hh : 0 ≤ pyGetOr w.humidity 100)
    (hw : 0 ≤ pyGetOr w.wind_speed 0)
    (hs : 0 ≤ pyGetOr w.soil_moisture 1)
    (hp : 0 ≤ pyGetOr w.precipitation 0) :
    r.temperature_factor = clamp01 ((pyGetOr w.temperature 0 - 10) / 30) ∧
    r.humidity_factor = clamp01 ((100 - pyGetOr w.humidity 100) / 100) ∧
    r.wind_factor = clamp01 (pyGetOr w.wind_speed 0 / 50) ∧
    r.soil_factor = clamp01 ((0.5 - pyGetOr w.soil_moisture 1) / 0.5) ∧
    r.risk_score = 0.25 * r.temperature_factor + 0.3 * r.humidity_factor +
      0.2 * r.wind_factor + 0.15 * r.soil_factor +
      0.1 * clamp01 (1 - pyGetOr w.precipitation 0 / 10) ∧
    0 ≤ r.risk_score ∧ r.risk_score ≤ 1 := by
  have hle2 : (100 - pyGetOr w.humidity 100) / 100 ≤ 1 :=
    (div_le_one (by norm_num)).mpr (by linarith)
  have e2 : max ((100 - pyGetOr w.humidity 100) / 100) 0 =
      clamp01 ((100 - pyGetOr w.humidity 100) / 100) :=
    (clamp01_of_le_one hle2).symm
  have e3 : min (pyGetOr w.wind_speed 0 / 50) 1 =
      clamp01 (pyGetOr w.wind_speed 0 / 50) :=
    (clamp01_of_nonneg (div_nonneg hw (by norm_num))).symm
  have hle4 : (0.5 - pyGetOr w.soil_moisture 1) / 0.5 ≤ 1 :=
    (div_le_one (by norm_num)).mpr (by linarith)
  have e4 : max ((0.5 - pyGetOr w.soil_moisture 1) / 0.5) 0 =
      clamp01 ((0.5 - pyGetOr w.soil_moisture 1) / 0.5) :=
    (clamp01_of_le_one hle4).symm
  have hle5 : 1 - pyGetOr w.precipitation 0 / 10 ≤ 1 := by
    have hd : 0 ≤ pyGetOr w.precipitation 0 / 10 :=
      div_nonneg hp (by norm_num)
    linarith
  have e5 : max (1 - pyGetOr w.precipitation 0 / 10) 0 =
      clamp01 (1 - pyGetOr w.precipitation 0 / 10) :=
    (clamp01_of_le_one hle5).symm
  unfold calculate_fire_risk at hr
  cases h1 : w.latitude with
  | none => rw [h1] at hr; simp at hr
  | some lat =>
  cases h2 : w.longitude with
  | none => rw [h1, h2] at hr; simp at hr
  | some lon =>
  cases h3 : w.weather_datetime with
  | none => rw [h1, h2, h3] at hr; simp at hr
  | some dt =>
    rw [h1, h2, h3] at hr
    simp only [Option.some.injEq] at hr
    subst hr
    refine ⟨rfl, e2, e3, e4, ?_, ?_, ?_⟩
    · show _ = _
      rw [← e5]
      dsimp only
      ring
    · dsimp only
      have b1 := clamp01_nonneg ((pyGetOr w.temperature 0 - 10) / 30)
      have b2 := clamp01_nonneg ((100 - pyGetOr w.humidity 100) / 100)
      have b3 := clamp01_nonneg (pyGetOr w.wind_speed 0 / 50)
      have b4 := clamp01_nonneg ((0.5 - pyGetOr w.soil_moisture 1) / 0.5)
      have b5 := clamp01_nonneg (1 - pyGetOr w.precipitation 0 / 10)
      rw [← e2] at b2
      rw [← e3] at b3
      rw [← e4] at b4
      rw [← e5] at b5
      unfold clamp01 at b1
      linarith
    · dsimp only
      have c1 := clamp01_le_one ((pyGetOr w.temperature 0 - 10) / 30)
      have c2 := clamp01_le_one ((100 - pyGetOr w.humidity 100) / 100)
      have c3 := clamp01_le_one (pyGetOr w.wind_speed 0 / 50)
      have c4 := clamp01_le_one ((0.5 - pyGetOr w.soil_moisture 1) / 0.5)
      have c5 := clamp01_le_one (1 - pyGetOr w.precipitation 0 / 10)
      have b1 := clamp01_nonneg ((pyGetOr w.temperature 0 - 10) / 30)
      have b2 := clamp01_nonneg ((100 - pyGetOr w.humidity 100) / 100)
      have b3 := clamp01_nonneg (pyGetOr w.wind_speed 0 / 50)
      have b4 := clamp01_nonneg ((0.5 - pyGetOr w.soil_moisture 1) / 0.5)
      have b5 := clamp01_nonneg (1 - pyGetOr w.precipitation 0 / 10)
      rw [← e2] at c2 b2
      rw [← e3] at c3 b3
      rw [← e4] at c4 b4
      rw [← e5] at c5 b5
      unfold clamp01 at c1 b1
      linarith

/-- Witness for C4 on the in-range record `w4w`: the computed score
0.625 lies in [0,1]. -/
theorem C4_witness :
    calculate_fire_risk w4w = some r4w ∧
    0 ≤ r4w.risk_score ∧ r4w.risk_score ≤ 1 := by
  have hr : calculate_fire_risk w4w = some r4w := by
    norm_num [calculate_fire_risk, w4w, r4w, mkWeather, pyGetOr, riskLevelOf,
      min_def, max_def]
  have h := C4_factor_formulas w4w r4w hr
    (by norm_num [w4w, mkWeather, pyGetOr])
    (by norm_num [w4w, mkWeather, pyGetOr])
    (by norm_num [w4w, mkWeather, pyGetOr])
    (by norm_num [w4w, mkWeather, pyGetOr])
  exact ⟨hr, h.2.2.2.2.2.1, h.2.2.2.2.2.2⟩

end WildfirePipeline
